import Mathlib

/-!
Shallow embedding of the Si5351 quadrature VFO driver
(src/si5351/si5351.cpp, src/si5351/si5351.h, src/example.cpp).

Machine integers of the source (uint8_t / uint32_t / uint64_t) are modelled as
ℕ; each definition's doc comment records the source location and, where it
matters, why the ℕ model is exact for the inputs the theorems quantify over.
The source's `double msn` VFO field is modelled as an exact rational ℚ; the
doc comments of `planMsn`, `msnA`, `msnB` and `msnTmp` record why the double
rounding of the source is below every resolution the spec talks about.
Bus traffic is modelled as the list of register writes an operation issues:
a write is a pair (start register, payload bytes).
-/

namespace Si5351

/-- Register addresses and bitfield constants from si5351.h (lines 29-56). -/
def SI_CLK_OE : ℕ := 3

def SI_CLK0_CTL : ℕ := 16

def SI_CLK1_CTL : ℕ := 17

def SI_CLK2_CTL : ℕ := 18

def SI_SYNTH_PLLA : ℕ := 26

def SI_SYNTH_PLLB : ℕ := 34

def SI_SYNTH_MS0 : ℕ := 42

def SI_SYNTH_MS1 : ℕ := 50

def SI_SYNTH_MS2 : ℕ := 58

def SI_CLK0_PHOFF : ℕ := 165

def SI_CLK1_PHOFF : ℕ := 166

def SI_PLL_RESET : ℕ := 177

def SI_CLK_INT : ℕ := 64

def SI_CLK_PLLB : ℕ := 32

def SI_CLK_INV : ℕ := 16

def SI_CLK_SRC_MS : ℕ := 12

def SI_CLK_IDRV_4mA : ℕ := 1

def SI_VCO_LO : ℕ := 400000000

def SI_VCO_HI : ℕ := 900000000

def SI_PLL_C : ℕ := 1000000

/-- Phase constants PH000/PH090/PH180/PH270 from si5351.h lines 23-26. -/
def PH000 : ℕ := 0

def PH090 : ℕ := 1

def PH180 : ℕ := 2

def PH270 : ℕ := 3

/-- VFO state record, vfo_t in si5351.h lines 59-65.
The double field `msn` is modelled as ℚ. -/
structure Vfo where
  freq : ℕ
  phase : ℕ
  ri : ℕ
  msi : ℕ
  msn : ℚ
deriving DecidableEq

/-- Session state: the Si5351 object's `_xtal` and `_vfo[2]` members
(si5351.h lines 92-93). -/
structure Session where
  xtal : ℕ
  vfo0 : Vfo
  vfo1 : Vfo
deriving DecidableEq

/-- A bus write: start register and payload bytes (one byte for `_wr`,
eight for `_wrBulk`). -/
abbrev BusWrite := ℕ × List ℕ

/-- R-divider selection by frequency band, from `_evaluate`
(si5351.cpp lines 210-213). -/
def planRi (freqHz : ℕ) : ℕ :=
  if freqHz < 1000000 then 128
  else if freqHz < 3000000 then 32
  else 1

/-- Clamping and even-rounding of the tentative MultiSynth divider, from
`_evaluate` (si5351.cpp lines 221-224): low clamp to 4, high clamp to 126,
increment if odd (`tentative & 1`), re-clamp to 126. -/
def msiClamp (t : ℕ) : ℕ :=
  let t1 := if t < 4 then 4 else t
  let t2 := if 126 < t1 then 126 else t1
  let t3 := if t2 % 2 = 1 then t2 + 1 else t2
  if 126 < t3 then 126 else t3

/-- MultiSynth integer divider selection, from `_evaluate` (si5351.cpp lines
215-226).  The source computes `(uint64_t)freqHz * ri` (no overflow for any
uint32 freqHz) and truncates the quotient of 700000000 into a uint32 (the
quotient is at most 700000000, which fits), so ℕ models it exactly. -/
def planMsi (freqHz ri : ℕ) : ℕ :=
  if freqHz < 6000000 then 126
  else msiClamp (700000000 / (freqHz * ri))

/-- Implied VCO frequency `freqHz * msi * ri`, the uint64 product computed
at si5351.cpp line 229. -/
def planVco (freqHz : ℕ) : ℕ :=
  freqHz * planMsi freqHz (planRi freqHz) * planRi freqHz

/-- PLL multiplier, from `_evaluate` line 235.  The source computes
`msi * ri * freqHz / xtal` in double precision: the three products are exact
integers below 2^53, and the final division carries at most a 2^-53 relative
rounding error, far below the 10^-6 resolution of the fixed fractional
denominator; the division is modelled exactly in ℚ. -/
def planMsn (xtal msi ri freqHz : ℕ) : ℚ :=
  ((msi : ℚ) * (ri : ℚ) * (freqHz : ℚ)) / (xtal : ℚ)

/-- The VFO slot a given index denotes (array `_vfo[2]`).  Indices above 1 are
never dereferenced by the source thanks to its short-circuit guards. -/
def getVfo (s : Session) (vfoIdx : ℕ) : Vfo :=
  if vfoIdx = 0 then s.vfo0 else s.vfo1

/-- Store a VFO slot back into the session. -/
def setVfo (s : Session) (vfoIdx : ℕ) (v : Vfo) : Session :=
  if vfoIdx = 0 then { s with vfo0 := v } else { s with vfo1 := v }

/-- State transition of `_evaluate` (si5351.cpp lines 205-243): early return on
invalid index or unchanged frequency, otherwise store freq, ri, msi and msn
(phase is left untouched).  `_evaluate` issues no bus traffic. -/
def evaluate (s : Session) (vfoIdx freqHz : ℕ) : Session :=
  if 1 < vfoIdx ∨ (getVfo s vfoIdx).freq = freqHz then s
  else
    let ri := planRi freqHz
    let msi := planMsi freqHz ri
    setVfo s vfoIdx
      { freq := freqHz, phase := (getVfo s vfoIdx).phase, ri := ri, msi := msi,
        msn := planMsn s.xtal msi ri freqHz }

/-- `setFreq` (si5351.cpp lines 114-117): guard the index, delegate to
`_evaluate`.  Issues no bus traffic. -/
def setFreq (s : Session) (vfoIdx freqHz : ℕ) : Session :=
  if 1 < vfoIdx then s else evaluate s vfoIdx freqHz

/-- `setPhase` (si5351.cpp lines 108-111): only VFO0, only phase 0-3;
otherwise a silent no-op.  Issues no bus traffic. -/
def setPhase (s : Session) (vfoIdx phase : ℕ) : Session :=
  if vfoIdx ≠ 0 ∨ 3 < phase then s
  else { s with vfo0 := { s.vfo0 with phase := phase } }

/-- New output-enable register value computed by `enable` (si5351.cpp lines
93-105) from the value `oe` read off the bus.  The uint8 complements
`~0x03` and `~0x04` are 252 and 251.  Note the source checks only
`vfoIdx == 0`: every other index, valid or not, takes the VFO1 branch. -/
def enableOe (vfoIdx : ℕ) (en : Bool) (oe : ℕ) : ℕ :=
  if vfoIdx = 0 then
    if en then oe &&& 252 else oe ||| 3
  else
    if en then oe &&& 251 else oe ||| 4

/-- Bus writes issued by `enable`: one write of the updated output-enable
register (after one read of it, which is not a write). -/
def enableWrites (vfoIdx : ℕ) (en : Bool) (oe : ℕ) : List BusWrite :=
  [(SI_CLK_OE, [enableOe vfoIdx en oe])]

/-- Session state installed by `begin` (si5351.cpp lines 74-76): the two
hard-coded default VFO configurations.  The double literals 30.0 are exactly
representable, so the ℚ model of the defaults is exact.  The subsequent
`update`/`enable` calls in `begin` do not change this state. -/
def beginState (xtal : ℕ) : Session :=
  { xtal := xtal,
    vfo0 := { freq := 7074000, phase := PH270, ri := 1, msi := 106, msn := 30 },
    vfo1 := { freq := 10000000, phase := PH000, ri := 1, msi := 76, msn := 30 } }

/-- Integer part taken by `_setMSN` line 160 from the double msn
(truncation of a nonnegative value, i.e. the floor). -/
def msnA (q : ℚ) : ℕ := q.floor.toNat

/-- Fractional numerator taken by `_setMSN` line 161:
`(msn - floor msn) * 1000000` truncated; always below 10^6. -/
def msnB (q : ℚ) : ℕ := ((q - (q.floor : ℚ)) * 1000000).floor.toNat

/-- floor(128*B / c) from `_setMSN` line 165.  For B < 10^6 the quotient is at
most 128 and the double quotient is never within 2^-40 of an integer it does
not equal, so the double floor equals ℕ division exactly. -/
def msnTmp (B : ℕ) : ℕ := 128 * B / SI_PLL_C

/-- P1 parameter of the PLL encoder, `_setMSN` line 166 (uint32 arithmetic;
no wrap for 4 ≤ A < 2^25, which every theorem below assumes). -/
def msnP1 (A B : ℕ) : ℕ := 128 * A + msnTmp B - 512

/-- P2 parameter of the PLL encoder, `_setMSN` line 167 (the subtrahend never
exceeds 128*B, so ℕ subtraction is exact). -/
def msnP2 (B : ℕ) : ℕ := 128 * B - SI_PLL_C * msnTmp B

/-- The 8-byte PLL register image built by `_setMSN` (si5351.cpp lines
170-179), as a function of the integer part A and fractional numerator B
of the multiplier. -/
def setMSNBytes (A B : ℕ) : List ℕ :=
  [(SI_PLL_C >>> 8) &&& 255,
   SI_PLL_C &&& 255,
   (msnP1 A B >>> 16) &&& 3,
   (msnP1 A B >>> 8) &&& 255,
   msnP1 A B &&& 255,
   ((SI_PLL_C >>> 12) &&& 240) ||| ((msnP2 B >>> 16) &&& 15),
   (msnP2 B >>> 8) &&& 255,
   msnP2 B &&& 255]

/-- The 8-byte integer-mode MultiSynth register image built by `_setMSI`
(si5351.cpp lines 185-199).  P1 = 128*msi - 512 (uint32; exact in ℕ for
msi ≥ 4), P2 = 0, P3 = 1, with the R-divider code in bits 6:4 of byte 2. -/
def setMSIBytes (msiEven rDivLog2 : ℕ) : List ℕ :=
  [0, 1,
   ((128 * msiEven - 512) >>> 16) &&& 3 ||| ((rDivLog2 &&& 7) <<< 4),
   ((128 * msiEven - 512) >>> 8) &&& 255,
   (128 * msiEven - 512) &&& 255,
   0, 0, 0]

/-- R divider value to register code, `_rDivToCode` (si5351.cpp lines 46-58). -/
def rDivToCode (r : ℕ) : ℕ :=
  if r = 1 then 0
  else if r = 2 then 1
  else if r = 4 then 2
  else if r = 8 then 3
  else if r = 16 then 4
  else if r = 32 then 5
  else if r = 64 then 6
  else if r = 128 then 7
  else 0

/-- Bus writes issued by `update` (si5351.cpp lines 120-154), in order:
PLL multiplier image, MultiSynth image(s), phase-offset registers and clock
control registers (VFO0 only), and the final PLL reset (register 177, 0xA0). -/
def updateWrites (s : Session) (vfoIdx : ℕ) : List BusWrite :=
  if 1 < vfoIdx then []
  else if vfoIdx = 0 then
    let v := s.vfo0
    let rcode := rDivToCode v.ri
    let clk0ctl := SI_CLK_SRC_MS ||| SI_CLK_INT ||| SI_CLK_IDRV_4mA
    let clk1ctl :=
      if v.phase = PH180 ∨ v.phase = PH270 then clk0ctl ||| SI_CLK_INV else clk0ctl
    [(SI_SYNTH_PLLA, setMSNBytes (msnA v.msn) (msnB v.msn)),
     (SI_SYNTH_MS0, setMSIBytes v.msi rcode),
     (SI_SYNTH_MS1, setMSIBytes v.msi rcode),
     (SI_CLK0_PHOFF, [0]),
     (SI_CLK1_PHOFF, [if v.phase = PH090 ∨ v.phase = PH270 then v.msi else 0]),
     (SI_CLK0_CTL, [clk0ctl]),
     (SI_CLK1_CTL, [clk1ctl]),
     (SI_PLL_RESET, [160])]
  else
    let v := s.vfo1
    [(SI_SYNTH_PLLB, setMSNBytes (msnA v.msn) (msnB v.msn)),
     (SI_SYNTH_MS2, setMSIBytes v.msi (rDivToCode v.ri)),
     (SI_CLK2_CTL, [SI_CLK_SRC_MS ||| SI_CLK_INT ||| SI_CLK_PLLB ||| SI_CLK_IDRV_4mA]),
     (SI_PLL_RESET, [160])]

/-- Decoder for the 8-byte PLL register image: the inverse demanded by the
spec's round-trip property (it does not exist in the source; it reads the
P1/P2 fields back out of the fixed layout and inverts the documented
parameter transform at fixed P3 = c). -/
def decodeMSNBytes : List ℕ → ℕ × ℕ
  | [_, _, b2, b3, b4, b5, b6, b7] =>
      let P1 := b2 % 4 * 65536 + b3 * 256 + b4
      let P2 := b5 % 16 * 65536 + b6 * 256 + b7
      ((P1 + 512) / 128, (P2 + SI_PLL_C * ((P1 + 512) % 128)) / 128)
  | _ => (0, 0)

/-- The literal reading of the spec's byte-2 description of the PLL image
("P1 top-2-bits merged with P3 top-4-bits"): P1[17:16] in the low bits and
P3[19:16] in the high nibble.  Modelled from the spec's words, to be compared
with byte 2 of `setMSNBytes`. -/
def claimMSNByte2 (A B : ℕ) : ℕ :=
  ((msnP1 A B >>> 16) &&& 3) ||| (((SI_PLL_C >>> 16) &&& 15) <<< 4)

/-- The spec's R-divider selection rule, in the spec's words
(band thresholds 1 MHz and 3 MHz). -/
def specRDivider (f : ℕ) : ℕ :=
  if f < 1000000 then 128
  else if f < 3000000 then 32
  else 1

/-- Round a number up to the nearest even integer (identity on evens),
as the spec's words describe the divider rounding. -/
def roundUpEven (n : ℕ) : ℕ := if n % 2 = 1 then n + 1 else n

/-- The spec's MultiSynth divider rule, in the spec's words: 126 below 6 MHz,
otherwise floor(700e6 / (f*R)) clamped to [4,126], rounded up to even, and
re-clamped to 126 after rounding. -/
def specMsDivider (f : ℕ) : ℕ :=
  if f < 6000000 then 126
  else min 126 (roundUpEven (max 4 (min 126 (700000000 / (f * specRDivider f)))))

/-! Bit-arithmetic bridge lemmas: the source's shifted masks written as
division and remainder. -/

theorem shr8_eq (x : ℕ) : x >>> 8 = x / 256 := by
  rw [Nat.shiftRight_eq_div_pow]

theorem shr16_eq (x : ℕ) : x >>> 16 = x / 65536 := by
  rw [Nat.shiftRight_eq_div_pow]

theorem and255_eq (x : ℕ) : x &&& 255 = x % 256 := by
  simpa using Nat.and_pow_two_sub_one_eq_mod x 8

theorem and15_eq (x : ℕ) : x &&& 15 = x % 16 := by
  simpa using Nat.and_pow_two_sub_one_eq_mod x 4

theorem and7_eq (x : ℕ) : x &&& 7 = x % 8 := by
  simpa using Nat.and_pow_two_sub_one_eq_mod x 3

theorem and3_eq (x : ℕ) : x &&& 3 = x % 4 := by
  simpa using Nat.and_pow_two_sub_one_eq_mod x 2

theorem lor240_eq (x : ℕ) (h : x < 16) : 240 ||| x = 240 + x := by
  interval_cases x <;> decide

/-- Arithmetic form of the PLL register image: every masked shift written as
division and remainder, the constant P3 = 10^6 bytes evaluated
(P3[15:8] = 66, P3[7:0] = 64, P3[19:16] = 15 giving the high nibble 240 of
byte 5). -/
theorem setMSNBytes_arith (A B : ℕ) (hB : B < 1000000) :
    setMSNBytes A B =
      [66, 64, msnP1 A B / 65536 % 4, msnP1 A B / 256 % 256, msnP1 A B % 256,
       240 + msnP2 B / 65536, msnP2 B / 256 % 256, msnP2 B % 256] := by
  have hP2lt : msnP2 B < 1000000 := by
    simp only [msnP2, msnTmp, SI_PLL_C]
    omega
  have hdiv : msnP2 B / 65536 < 16 := by omega
  have hc : (SI_PLL_C >>> 12) &&& 240 = 240 := by decide
  simp only [setMSNBytes, hc, shr16_eq, shr8_eq]
  norm_num [SI_PLL_C, and255_eq, and15_eq, and3_eq, Nat.mod_eq_of_lt hdiv, lor240_eq _ hdiv]

/-- C4, counterexample.  The claim's literal packing words put P3's top 4 bits
into byte 2 next to P1's top 2 bits, but the code's byte 2 holds only
P1[17:16] (high nibble zero): at multiplier 30 + 0/10^6 the code's byte 2 is
0 while the claimed merge is 240. -/
theorem c4_counterexample : (setMSNBytes 30 0)[2]! ≠ claimMSNByte2 30 0 := by decide

/-- C4, amended.  For every multiplier a + b/c with c = 10^6, a ≥ 4, b < c,
the PLL encoder produces the 8-byte image with P1 = floor(128a + floor(128b/c)
- 512), P2 = 128b - c*floor(128b/c), P3 = c, packed as: P3[15:8], P3[7:0],
P1[17:16] alone in byte 2, P1[15:8], P1[7:0], P3[19:16] in the high nibble of
byte 5 merged with P2[19:16] in its low nibble, P2[15:8], P2[7:0]. -/
theorem c4_pll_encoder (A B : ℕ) (hA : 4 ≤ A) (hB : B < 1000000) :
    setMSNBytes A B =
      [SI_PLL_C / 256 % 256, SI_PLL_C % 256,
       msnP1 A B / 65536 % 4, msnP1 A B / 256 % 256, msnP1 A B % 256,
       SI_PLL_C / 65536 * 16 + msnP2 B / 65536,
       msnP2 B / 256 % 256, msnP2 B % 256] := by
  rw [setMSNBytes_arith A B hB]
  norm_num [SI_PLL_C]

/-- Witness for c4_pll_encoder at a = 30, b = 500000. -/
theorem c4_witness :
    (4 ≤ 30 ∧ 500000 < 1000000) ∧
      setMSNBytes 30 500000 =
        [SI_PLL_C / 256 % 256, SI_PLL_C % 256,
         msnP1 30 500000 / 65536 % 4, msnP1 30 500000 / 256 % 256, msnP1 30 500000 % 256,
         SI_PLL_C / 65536 * 16 + msnP2 500000 / 65536,
         msnP2 500000 / 256 % 256, msnP2 500000 % 256] :=
  ⟨⟨by norm_num, by norm_num⟩, c4_pll_encoder 30 500000 (by norm_num) (by norm_num)⟩

/-- C5, counterexample.  The claim quantifies over every multiplier with
a ≥ 4 and 0 ≤ b < c; at a = 2052, b = 0 the parameter P1 = 262144 needs 19
bits, the 18-bit field truncates it, and the round trip returns (4, 0). -/
theorem c5_counterexample : decodeMSNBytes (setMSNBytes 2052 0) ≠ (2052, 0) := by decide

/-- C5, amended.  The encoding round-trips exactly whenever P1 fits its
18-bit register field, i.e. for 4 ≤ a ≤ 2051 and 0 ≤ b < c = 10^6. -/
theorem c5_roundtrip (A B : ℕ) (hA4 : 4 ≤ A) (hA : A ≤ 2051) (hB : B < 1000000) :
    decodeMSNBytes (setMSNBytes A B) = (A, B) := by
  rw [setMSNBytes_arith A B hB]
  have ht : msnTmp B < 128 := by
    simp only [msnTmp, SI_PLL_C]
    omega
  have hP1 : msnP1 A B + 512 = 128 * A + msnTmp B := by
    simp only [msnP1]
    omega
  have hP1lt : msnP1 A B < 262144 := by
    simp only [msnP1]
    omega
  have hP2lt : msnP2 B < 1000000 := by
    simp only [msnP2, msnTmp, SI_PLL_C]
    omega
  have hP2 : msnP2 B + 1000000 * msnTmp B = 128 * B := by
    simp only [msnP2, msnTmp, SI_PLL_C]
    omega
  have hdd1 : msnP1 A B / 256 / 256 = msnP1 A B / 65536 := by
    rw [Nat.div_div_eq_div_mul]
  have hdd2 : msnP2 B / 256 / 256 = msnP2 B / 65536 := by
    rw [Nat.div_div_eq_div_mul]
  simp only [decodeMSNBytes, SI_PLL_C, Prod.mk.injEq]
  have hrec1 : msnP1 A B / 65536 % 4 % 4 * 65536 + msnP1 A B / 256 % 256 * 256 +
      msnP1 A B % 256 = msnP1 A B := by omega
  rw [hrec1]
  have h16 : msnP2 B / 65536 < 16 := by omega
  have hm : (240 + msnP2 B / 65536) % 16 = msnP2 B / 65536 := by omega
  have hmod : (msnP1 A B + 512) % 128 = msnTmp B := by omega
  rw [hm, hmod]
  constructor
  · omega
  · omega

/-- Witness for c5_roundtrip at a = 30, b = 500000. -/
theorem c5_witness :
    (4 ≤ 30 ∧ 30 ≤ 2051 ∧ 500000 < 1000000) ∧
      decodeMSNBytes (setMSNBytes 30 500000) = (30, 500000) :=
  ⟨⟨by norm_num, by norm_num, by norm_num⟩,
   c5_roundtrip 30 500000 (by norm_num) (by norm_num) (by norm_num)⟩

/-- C8.  For every even msDivider in [4,126] and R-divider code in [0,7],
the output-divider encoder produces the integer-mode image with
P1 = 128*msDivider - 512, P2 = 0, P3 = 1 (bytes 0,1 = P3[15:8], P3[7:0] =
0, 1; bytes 5-7 = 0), and the 3-bit R code in bits 6:4 of byte 2, adjacent
to P1's top two bits in bits 1:0, with the same byte-layout discipline as
the PLL encoder. -/
theorem c8_msi_encoder (m r : ℕ) (h4 : 4 ≤ m) (h126 : m ≤ 126) (hev : m % 2 = 0)
    (hr : r ≤ 7) :
    setMSIBytes m r =
      [0, 1, (128 * m - 512) / 65536 % 4 + 16 * r,
       (128 * m - 512) / 256 % 256, (128 * m - 512) % 256, 0, 0, 0] := by
  have hr8 : r % 8 = r := Nat.mod_eq_of_lt (by omega)
  have h0 : (128 * m - 512) / 65536 = 0 := by omega
  simp only [setMSIBytes, shr16_eq, shr8_eq, Nat.shiftLeft_eq, h0]
  norm_num [hr8, and255_eq, and7_eq, Nat.mul_comm]

/-- Witness for c8_msi_encoder at msDivider 96, R code 0. -/
theorem c8_witness :
    (4 ≤ 96 ∧ 96 ≤ 126 ∧ 96 % 2 = 0 ∧ 0 ≤ 7) ∧
      setMSIBytes 96 0 =
        [0, 1, (128 * 96 - 512) / 65536 % 4 + 16 * 0,
         (128 * 96 - 512) / 256 % 256, (128 * 96 - 512) % 256, 0, 0, 0] :=
  ⟨⟨by norm_num, by norm_num, by norm_num, by norm_num⟩,
   c8_msi_encoder 96 0 (by norm_num) (by norm_num) (by norm_num) (by norm_num)⟩

/-- The clamp-and-round pipeline of the source, written as the spec words it:
clamp to [4,126], round up to even, re-clamp to 126. -/
theorem msiClamp_spec (t : ℕ) :
    msiClamp t = min 126 (roundUpEven (max 4 (min 126 t))) := by
  simp only [msiClamp, roundUpEven, Nat.min_def, Nat.max_def]
  split_ifs <;> first | exact False.elim (by assumption) | omega

/-- The clamped divider is always even and within [4, 126]. -/
theorem msiClamp_bounds (t : ℕ) :
    4 ≤ msiClamp t ∧ msiClamp t ≤ 126 ∧ msiClamp t % 2 = 0 := by
  simp only [msiClamp]
  split_ifs <;> first | exact False.elim (by assumption) | omega

/-- On an even tentative divider already in range the clamp is the identity. -/
theorem msiClamp_even_of (t : ℕ) (h4 : 4 ≤ t) (h126 : t ≤ 126) (hev : t % 2 = 0) :
    msiClamp t = t := by
  simp only [msiClamp]
  split_ifs <;> first | exact False.elim (by assumption) | omega

/-- An odd tentative divider in range is bumped to the next even number. -/
theorem msiClamp_odd_of (t : ℕ) (h4 : 4 ≤ t) (h126 : t ≤ 125) (hodd : t % 2 = 1) :
    msiClamp t = t + 1 := by
  simp only [msiClamp]
  split_ifs <;> first | exact False.elim (by assumption) | omega

/-- C1, counterexample.  The spec's own low-frequency example (500 kHz) gets
R = 128 and M = 126, so the implied VCO frequency is 8064 MHz, far above the
900 MHz bound: the planner accepts the out-of-range result (the range check
at si5351.cpp lines 230-232 has an empty body). -/
theorem c1_counterexample : SI_VCO_HI < planVco 500000 := by decide

/-- C1, amended.  The VCO-range invariant does hold on two bands: for
24802 Hz ≤ f ≤ 55803 Hz (R = 128, M = 126) and for
3174604 Hz ≤ f ≤ 225 MHz (R = 1); outside them the planner stores
parameters whose implied VCO frequency is out of range. -/
theorem c1_vco_bands (f : ℕ)
    (hf : (24802 ≤ f ∧ f ≤ 55803) ∨ (3174604 ≤ f ∧ f ≤ 225000000)) :
    SI_VCO_LO ≤ planVco f ∧ planVco f ≤ SI_VCO_HI := by
  have hLO : SI_VCO_LO = 400000000 := rfl
  have hHI : SI_VCO_HI = 900000000 := rfl
  rw [hLO, hHI]
  rcases hf with ⟨h1, h2⟩ | ⟨h1, h2⟩
  · have hri : planRi f = 128 := by
      simp only [planRi]
      rw [if_pos (by omega)]
    have hmsi : planMsi f 128 = 126 := by
      simp only [planMsi]
      rw [if_pos (by omega)]
    simp only [planVco, hri, hmsi]
    omega
  · have hri : planRi f = 1 := by
      simp only [planRi]
      rw [if_neg (by omega), if_neg (by omega)]
    by_cases h6 : f < 6000000
    · have hmsi : planMsi f 1 = 126 := by
        simp only [planMsi]
        rw [if_pos h6]
      simp only [planVco, hri, hmsi]
      omega
    · have hf0 : 0 < f := by omega
      have hmod : 700000000 % f < f := Nat.mod_lt _ hf0
      have hdm := Nat.div_add_mod 700000000 f
      simp only [planVco, hri, planMsi, mul_one]
      rw [if_neg h6]
      by_cases h175 : f ≤ 175000000
      · have hq4 : 4 ≤ 700000000 / f := by
          rw [Nat.le_div_iff_mul_le hf0]
          omega
        have hq116 : 700000000 / f ≤ 116 := by
          calc 700000000 / f ≤ 700000000 / 6000000 :=
                Nat.div_le_div_left (by omega) (by omega)
            _ = 116 := by norm_num
        by_cases hpar : 700000000 / f % 2 = 1
        · rw [msiClamp_odd_of _ hq4 (by omega) hpar]
          have hexp : f * (700000000 / f + 1) = f * (700000000 / f) + f := by ring
          rw [hexp]
          omega
        · rw [msiClamp_even_of _ hq4 (by omega) (by omega)]
          omega
      · have hq3 : 700000000 / f = 3 := by
          have hlt : 700000000 / f < 4 := by
            rw [Nat.div_lt_iff_lt_mul hf0]
            omega
          have hge : 3 ≤ 700000000 / f := by
            rw [Nat.le_div_iff_mul_le hf0]
            omega
          omega
        rw [hq3, show msiClamp 3 = 4 by decide]
        omega

/-- Witness for c1_vco_bands at f = 10 MHz (the repository example's VFO1
frequency): VCO = 700 MHz exactly. -/
theorem c1_witness :
    ((24802 ≤ 10000000 ∧ 10000000 ≤ 55803) ∨
        (3174604 ≤ 10000000 ∧ 10000000 ≤ 225000000)) ∧
      (SI_VCO_LO ≤ planVco 10000000 ∧ planVco 10000000 ≤ SI_VCO_HI) :=
  ⟨Or.inr ⟨by norm_num, by norm_num⟩,
   c1_vco_bands 10000000 (Or.inr ⟨by norm_num, by norm_num⟩)⟩

/-- C2.  For every uint32 target frequency the planner's R divider follows the
spec's band rule, its MultiSynth divider follows the spec's
clamp-round-reclamp rule exactly, and the resulting divider is always even
and within [4, 126]. -/
theorem c2_planner_formula (f : ℕ) (hf : f < 4294967296) :
    planRi f = specRDivider f ∧
      planMsi f (planRi f) = specMsDivider f ∧
      planMsi f (planRi f) % 2 = 0 ∧
      4 ≤ planMsi f (planRi f) ∧ planMsi f (planRi f) ≤ 126 := by
  have hb := msiClamp_bounds (700000000 / (f * planRi f))
  have heq : planMsi f (planRi f) = specMsDivider f := by
    simp only [planMsi, specMsDivider]
    split_ifs with h6
    · rfl
    · rw [msiClamp_spec]
      rfl
  refine ⟨rfl, heq, ?_, ?_, ?_⟩ <;>
    · simp only [planMsi]
      split_ifs with h6
      · norm_num
      · omega

/-- Witness for c2_planner_formula at f = 7074000. -/
theorem c2_witness :
    7074000 < 4294967296 ∧
      (planRi 7074000 = specRDivider 7074000 ∧
        planMsi 7074000 (planRi 7074000) = specMsDivider 7074000 ∧
        planMsi 7074000 (planRi 7074000) % 2 = 0 ∧
        4 ≤ planMsi 7074000 (planRi 7074000) ∧ planMsi 7074000 (planRi 7074000) ≤ 126) :=
  ⟨by norm_num, c2_planner_formula 7074000 (by norm_num)⟩

/-- C3, counterexample.  The bring-up defaults violate the exact-multiplier
invariant: VFO1 is installed with pllMultiplier 30.0 while
msDivider * rDivider * targetFrequencyHz / crystalFrequencyHz =
76 * 1 * 10 MHz / 25 MHz = 30.4; the products differ by 10 MHz, a multiplier
drift of 0.4, vastly beyond the 10^-6 resolution (xtal/10^6 = 25 Hz). -/
theorem c3_counterexample :
    (beginState 25000000).vfo1.msn * ((beginState 25000000).xtal : ℚ) ≠
        ((beginState 25000000).vfo1.msi : ℚ) * ((beginState 25000000).vfo1.ri : ℚ) *
          ((beginState 25000000).vfo1.freq : ℚ) ∧
      ((beginState 25000000).vfo1.msi : ℚ) * ((beginState 25000000).vfo1.ri : ℚ) *
            ((beginState 25000000).vfo1.freq : ℚ) -
          (beginState 25000000).vfo1.msn * ((beginState 25000000).xtal : ℚ) =
        10000000 ∧
      (1 / 1000000 : ℚ) * ((beginState 25000000).xtal : ℚ) < 10000000 := by
  norm_num [beginState]

/-- C3, amended.  In every state produced by an actual planner run (a
setFreq/_evaluate call with a valid index and a frequency different from the
stored one), the stored multiplier satisfies
pllMultiplier * crystal = msDivider * rDivider * targetFrequency exactly in
the exact-rational model of the source's double arithmetic; the hard-coded
bring-up defaults do not satisfy it. -/
theorem c3_planned_exact (s : Session) (i f : ℕ) (hi : i ≤ 1)
    (hne : (getVfo s i).freq ≠ f) (hx : 0 < s.xtal) :
    (getVfo (evaluate s i f) i).msn * ((s.xtal : ℕ) : ℚ) =
      ((getVfo (evaluate s i f) i).msi : ℚ) * ((getVfo (evaluate s i f) i).ri : ℚ) *
        ((getVfo (evaluate s i f) i).freq : ℚ) := by
  have hx0 : ((s.xtal : ℕ) : ℚ) ≠ 0 := Nat.cast_ne_zero.mpr (by omega)
  have hguard : ¬(1 < i ∨ (getVfo s i).freq = f) := by
    push_neg
    exact ⟨by omega, hne⟩
  rw [evaluate, if_neg hguard]
  interval_cases i
  · simp only [getVfo, setVfo, if_pos rfl, planMsn]
    exact div_mul_cancel₀ _ hx0
  · simp only [getVfo, setVfo, if_neg one_ne_zero, planMsn]
    exact div_mul_cancel₀ _ hx0

/-- Witness for c3_planned_exact: plan 10 MHz on VFO0 of the default session. -/
theorem c3_witness :
    (0 ≤ 1 ∧ (getVfo (beginState 25000000) 0).freq ≠ 10000000 ∧
        0 < (beginState 25000000).xtal) ∧
      (getVfo (evaluate (beginState 25000000) 0 10000000) 0).msn *
          (((beginState 25000000).xtal : ℕ) : ℚ) =
        ((getVfo (evaluate (beginState 25000000) 0 10000000) 0).msi : ℚ) *
          ((getVfo (evaluate (beginState 25000000) 0 10000000) 0).ri : ℚ) *
          ((getVfo (evaluate (beginState 25000000) 0 10000000) 0).freq : ℚ) :=
  ⟨⟨by norm_num, by decide, by decide⟩,
   c3_planned_exact (beginState 25000000) 0 10000000 (by norm_num) (by decide) (by decide)⟩

/-- C6.  For every session state, update(0) writes the same MultiSynth image
to VFO0's two physical clocks (bases 42 and 50), always writes 0 to CLK0's
phase-offset register, writes msDivider to CLK1's phase-offset register for
phase 90/270 and 0 for phase 0/180, and sets CLK1's inversion bit exactly for
phase 180/270. -/
theorem c6_update_vfo0 (s : Session) :
    ((updateWrites s 0)[1]!).1 = SI_SYNTH_MS0 ∧
      ((updateWrites s 0)[2]!).1 = SI_SYNTH_MS1 ∧
      ((updateWrites s 0)[1]!).2 = ((updateWrites s 0)[2]!).2 ∧
      (updateWrites s 0)[3]! = (SI_CLK0_PHOFF, [0]) ∧
      (updateWrites s 0)[4]! =
        (SI_CLK1_PHOFF,
          [if s.vfo0.phase = PH090 ∨ s.vfo0.phase = PH270 then s.vfo0.msi else 0]) ∧
      ((updateWrites s 0)[6]!).1 = SI_CLK1_CTL ∧
      ((((updateWrites s 0)[6]!).2)[0]! &&& SI_CLK_INV = SI_CLK_INV ↔
        (s.vfo0.phase = PH180 ∨ s.vfo0.phase = PH270)) := by
  have hset :
      (SI_CLK_SRC_MS ||| SI_CLK_INT ||| SI_CLK_IDRV_4mA ||| SI_CLK_INV) &&& SI_CLK_INV =
        SI_CLK_INV := by decide
  have hclr :
      ¬((SI_CLK_SRC_MS ||| SI_CLK_INT ||| SI_CLK_IDRV_4mA) &&& SI_CLK_INV = SI_CLK_INV) := by
    decide
  by_cases h2 : s.vfo0.phase = PH180 ∨ s.vfo0.phase = PH270
  · simp [updateWrites, h2, hset]
  · simp [updateWrites, h2, hclr]

/-- C7, counterexample.  With a 25 MHz crystal, planning 7074000 Hz stores
msDivider 98 (floor(700e6 / 7074000) = 98, already even), not the 96 the
claim states. -/
theorem c7_counterexample :
    (setFreq (beginState 25000000) 1 7074000).vfo1.msi ≠ 96 := by decide

/-- C7, amended.  Planning 7074000 Hz (from any state whose stored frequency
differs, e.g. VFO1 of the default session) yields R = 1 and M = 98, with M
even and within [4, 126], and the implied VCO frequency 693252000 Hz in
range. -/
theorem c7_plan7074000 :
    (setFreq (beginState 25000000) 1 7074000).vfo1.ri = 1 ∧
      (setFreq (beginState 25000000) 1 7074000).vfo1.msi = 98 ∧
      (setFreq (beginState 25000000) 1 7074000).vfo1.msi % 2 = 0 ∧
      4 ≤ (setFreq (beginState 25000000) 1 7074000).vfo1.msi ∧
      (setFreq (beginState 25000000) 1 7074000).vfo1.msi ≤ 126 ∧
      SI_VCO_LO ≤ planVco 7074000 ∧ planVco 7074000 ≤ SI_VCO_HI := by
  refine ⟨?_, ?_, ?_, ?_, ?_, ?_, ?_⟩ <;> decide

/-- C9, counterexample.  The claim says an out-of-range vfoIndex is a silent
no-op with no bus writes, but `enable` never checks its index: enable(2,
false) reads the output-enable register and writes it back with CLK2's
disable bit set (value 4 when 0 was read). -/
theorem c9_counterexample :
    enableWrites 2 false 0 ≠ [] ∧ enableOe 2 false 0 = 4 := by
  refine ⟨by decide, by decide⟩

/-- C9, amended.  setPhase, setFreq and update really are silent no-ops on an
out-of-range index (state unchanged, no bus writes; setFreq/_evaluate issue no
writes at all).  setPhase is a silent no-op for every index other than 0 —
including the otherwise-valid index 1, mirroring the code's
`vfoIdx != 0 || phase > 3` guard — and for phase > 3 at index 0.  But
`enable` with any index above 1 behaves exactly as it does for VFO1, issuing
the VFO1 output-enable write. -/
theorem c9_invalid_input (s : Session) (i p f oe : ℕ) (en : Bool) (hi : 1 < i) :
    setFreq s i f = s ∧ updateWrites s i = [] ∧
      (∀ j q, j ≠ 0 → setPhase s j q = s) ∧
      (3 < p → setPhase s 0 p = s) ∧ enableOe i en oe = enableOe 1 en oe ∧
      enableWrites i en oe = enableWrites 1 en oe := by
  have hi0 : i ≠ 0 := by omega
  refine ⟨?_, ?_, ?_, ?_, ?_, ?_⟩
  · simp [setFreq, hi]
  · simp [updateWrites, hi]
  · intro j q hj
    simp [setPhase, hj]
  · intro hp
    simp [setPhase, hp]
  · simp [enableOe, hi0]
  · simp [enableWrites, enableOe, hi0]

/-- Witness for c9_invalid_input at index 2, phase 4, with the universal
setPhase conjunct instantiated at index 1 (phase 2) and at index 2. -/
theorem c9_witness :
    1 < 2 ∧
      (setFreq (beginState 25000000) 2 123 = beginState 25000000 ∧
        updateWrites (beginState 25000000) 2 = [] ∧
        setPhase (beginState 25000000) 1 2 = beginState 25000000 ∧
        setPhase (beginState 25000000) 2 4 = beginState 25000000 ∧
        (3 < 4 → setPhase (beginState 25000000) 0 4 = beginState 25000000) ∧
        enableOe 2 true 0 = enableOe 1 true 0 ∧
        enableWrites 2 true 0 = enableWrites 1 true 0) := by
  have T := c9_invalid_input (beginState 25000000) 2 4 123 0 true (by norm_num)
  exact ⟨by norm_num, T.1, T.2.1, T.2.2.1 1 2 (by norm_num), T.2.2.1 2 4 (by norm_num),
    T.2.2.2.1, T.2.2.2.2.1, T.2.2.2.2.2⟩

/-- C10.  Requesting a frequency equal to the one already stored for a valid
VFO leaves the whole session state unchanged (the planner's early return at
si5351.cpp line 206); setFreq/_evaluate perform no bus writes at all, so no
register traffic results either. -/
theorem c10_setFreq_idempotent (s : Session) (i f : ℕ) (hi : i ≤ 1)
    (hf : (getVfo s i).freq = f) : setFreq s i f = s := by
  have hni : ¬1 < i := by omega
  simp [setFreq, evaluate, hni, hf]

/-- Witness for c10_setFreq_idempotent: re-requesting the default 7074000 Hz
on VFO0. -/
theorem c10_witness :
    (0 ≤ 1 ∧ (getVfo (beginState 25000000) 0).freq = 7074000) ∧
      setFreq (beginState 25000000) 0 7074000 = beginState 25000000 :=
  ⟨⟨by norm_num, by decide⟩,
   c10_setFreq_idempotent (beginState 25000000) 0 7074000 (by norm_num) (by decide)⟩

end Si5351
